import Mathlib

/-!
Verification of the Slack webhook dispatch core in `src/resources/src/main.rs`
(devil_bot_rust).  The handler parses a JSON body, echoes the `challenge`
field, and classifies the event into a list of side-effecting actions
(onboard a new user, send a reply, increment a per-user counter).

The embedding mirrors serde_json semantics: `body["k"]` on a non-object or a
missing key yields JSON null, and `as_str().unwrap_or(d)` substitutes the
sentinel `d` whenever the value is not a string.  Side effects are reified:
`intercept_command` returns the list of action requests it would dispatch,
in dispatch order; log statements have no observable effect and are omitted.
-/

namespace DevilBot

/-- A JSON value, as parsed by serde_json. -/
inductive Json where
  | null : Json
  | bool : Bool → Json
  | num : Int → Json
  | str : String → Json
  | arr : List Json → Json
  | obj : List (String × Json) → Json

/-- First-match lookup in an object's field list (serde_json maps have
distinct keys, so first-match agrees with map lookup). -/
def jlookup : List (String × Json) → String → Option Json
  | [], _ => Option.none
  | (k, v) :: rest, key => if k = key then Option.some v else jlookup rest key

/-- `body["key"]` in serde_json: field value of an object, JSON null for a
missing key or a non-object value. -/
def Json.index : Json → String → Json
  | Json.obj fields, key => (jlookup fields key).getD Json.null
  | _, _ => Json.null

/-- `Value::as_str`: `Some s` exactly on JSON strings. -/
def Json.asStr : Json → Option String
  | Json.str s => Option.some s
  | _ => Option.none

/-- `value.as_str().unwrap_or(d)`. -/
def Json.asStrOr (j : Json) (d : String) : String := (j.asStr).getD d

/-- `Value == "lit"`: true exactly when the value is that JSON string. -/
def Json.eqStr : Json → String → Bool
  | Json.str s, t => s = t
  | _, _ => false

/-- `c :: cs` starts with the pattern (second argument). -/
def charsStartWith : List Char → List Char → Bool
  | _, [] => true
  | [], _ :: _ => false
  | c :: cs, d :: ds => c = d && charsStartWith cs ds

/-- The pattern (first argument) occurs as a contiguous run in the list. -/
def charsHaveSub (pat : List Char) : List Char → Bool
  | [] => pat.isEmpty
  | c :: rest => charsStartWith (c :: rest) pat || charsHaveSub pat rest

/-- Rust `str::contains` with a string pattern: substring containment. -/
def strHasSub (s pat : String) : Bool := charsHaveSub pat.data s.data

/-- ASCII lowercasing of one character (`A`–`Z` shifted to `a`–`z`).  Rust's
`to_lowercase` additionally lowers non-ASCII letters; every trigger literal
of the dispatch (`"ping"`, `"buns"`) is ASCII, and no claim depends on the
lowercasing of other characters. -/
def charToLower (c : Char) : Char :=
  if 65 ≤ c.toNat ∧ c.toNat ≤ 90 then Char.ofNat (c.toNat + 32) else c

/-- `str::to_lowercase`, character by character. -/
def strToLowercase (s : String) : String := String.mk (s.data.map charToLower)

/-- The side-effecting actions the dispatch core can request:
`commands::onboard_user::run`, `commands::ping::run`, `commands::buns::run`. -/
inductive Action where
  | onboard (userId firstName : String) : Action
  | reply (channel : String) : Action
  | incrementCounter (channel userId : String) : Action
deriving DecidableEq, Repr

/-- Recognizes the onboarding action. -/
def Action.isOnboard : Action → Bool
  | Action.onboard _ _ => true
  | _ => false

/-- Recognizes the reply action. -/
def Action.isReply : Action → Bool
  | Action.reply _ => true
  | _ => false

/-- Recognizes the counter-increment action. -/
def Action.isIncrement : Action → Bool
  | Action.incrementCounter _ _ => true
  | _ => false

/-- `body["event"]["type"].as_str().unwrap_or("invalid event type")`. -/
def event_type (body : Json) : String :=
  ((body.index "event").index "type").asStrOr "invalid event type"

/-- `body["event"]["user"]["id"].as_str().unwrap_or("invalid_user_name")`. -/
def username (body : Json) : String :=
  (((body.index "event").index "user").index "id").asStrOr "invalid_user_name"

/-- `body["event"]["user"]["profile"]["first_name"].as_str().unwrap_or("")`. -/
def first_name (body : Json) : String :=
  ((((body.index "event").index "user").index "profile").index "first_name").asStrOr ""

/-- `body["event"]["channel"].as_str().unwrap_or("invalid_channel")`. -/
def channel (body : Json) : String :=
  ((body.index "event").index "channel").asStrOr "invalid_channel"

/-- `body["event"]["text"].as_str().unwrap_or("invalid_text").to_lowercase()`. -/
def text (body : Json) : String :=
  strToLowercase (((body.index "event").index "text").asStrOr "invalid_text")

/-- `body["enterprise_id"].as_str().unwrap_or("invalid_channel")` — note the
source defaults this USER id to the sentinel `"invalid_channel"`. -/
def enterprise_user_id (body : Json) : String :=
  (body.index "enterprise_id").asStrOr "invalid_channel"

/-- `body["event"]["subtype"] == "bot_message"`. -/
def is_bot (body : Json) : Bool :=
  ((body.index "event").index "subtype").eqStr "bot_message"

/-- The `match event_type { "team_join" => onboard, _ => log }` step of
`intercept_command`, which runs before the channel and bot guards. -/
def onboardActions (body : Json) : List Action :=
  if event_type body = "team_join" then
    [Action.onboard (username body) (first_name body)]
  else []

/-- `intercept_command(body)` from `main.rs`, returning the actions it
dispatches in order: the team_join onboarding runs first; then, unless the
channel differs from `"C0351GJ62Q0"` or the event is a bot message, the
exact-match `"ping"` reply and the substring `"buns"` counter increment. -/
def intercept_command (body : Json) : List Action :=
  if channel body ≠ "C0351GJ62Q0" then onboardActions body
  else if is_bot body then onboardActions body
  else
    onboardActions body
      ++ (if text body = "ping" then [Action.reply (channel body)] else [])
      ++ (if strHasSub (text body) "buns" then
            [Action.incrementCounter (channel body) (enterprise_user_id body)]
          else [])

/-- `intercept_challenge_request(body)`: echoes `body["challenge"]` as a
string, substituting the sentinel `"invalid_challenge"` when the field is
absent or not a string (the token and type fields are only logged). -/
def intercept_challenge_request (body : Json) : String :=
  (body.index "challenge").asStrOr "invalid_challenge"

/-- Result of `serde_json::from_slice` on the request body: either the raw
bytes were not valid JSON, or they parsed to a value. -/
inductive ParseResult where
  | malformed : ParseResult
  | parsed (body : Json) : ParseResult

/-- `handler(request)`: the `?` on `serde_json::from_slice` propagates a
parse failure as the request's error; otherwise the response is
`json!({ "challenge": challenge })` and `intercept_command` dispatches its
actions. -/
def handler : ParseResult → Except String (Json × List Action)
  | ParseResult.malformed => Except.error "malformed payload"
  | ParseResult.parsed body =>
      Except.ok
        (Json.obj [("challenge", Json.str (intercept_challenge_request body))],
         intercept_command body)

/-- Outcome of code that may call `process::exit`: either the process
terminates with the given status, or the computation finishes. -/
inductive FatalOr (α : Type) where
  | exit (code : Nat) : FatalOr α
  | ok (val : α) : FatalOr α
deriving DecidableEq, Repr

/-- `get_env_var(env_var)` from `main.rs`, with the process environment made
explicit: a missing variable logs and calls `process::exit(1)`. -/
def get_env_var (env : String → Option String) (name : String) : FatalOr String :=
  match env name with
  | Option.some val => FatalOr.ok val
  | Option.none => FatalOr.exit 1

/-- `increment_buns(enterprise_user_id)` from `main.rs`.  The value produced
comes from `aws::dynamo::increment_item`, defined in the `aws` module which
is not under `src/`; modelled from the spec ("calls the Counter Store
Client's increment operation; on failure, logs the error and continues"),
its outcome is supplied as the `storeResult` parameter.  The returned list
holds the log lines emitted by the `unwrap_or_else` error handler. -/
def increment_buns (env : String → Option String)
    (storeResult : Except String Unit) : FatalOr (List String) :=
  match get_env_var env "BUNS_TABLE_NAME" with
  | FatalOr.exit c => FatalOr.exit c
  | FatalOr.ok _ =>
      match storeResult with
      | Except.ok _ => FatalOr.ok []
      | Except.error err => FatalOr.ok ["DynamoDB increment buns error: " ++ err]

/-- An environment with no variables set. -/
def envEmpty : String → Option String := fun _ => Option.none

/-- An environment where every variable is set to `"buns-table"`. -/
def envWithTable : String → Option String := fun _ => Option.some "buns-table"

/-- A body whose event sits on the allowed channel, is not a bot message,
and carries the text `"PING buns"`. -/
def pingBunsBody : Json :=
  Json.obj
    [("event",
      Json.obj
        [("channel", Json.str "C0351GJ62Q0"),
         ("text", Json.str "PING buns")])]

/-- A body for a team_join event carrying a user id and first name. -/
def teamJoinBody : Json :=
  Json.obj
    [("event",
      Json.obj
        [("type", Json.str "team_join"),
         ("user",
          Json.obj
            [("id", Json.str "U123"),
             ("profile", Json.obj [("first_name", Json.str "Ada")])])])]

/-- A body on a channel other than the allowed one, with text `"ping"`. -/
def wrongChannelBody : Json :=
  Json.obj
    [("event",
      Json.obj
        [("channel", Json.str "C9999999999"),
         ("text", Json.str "ping")])]

/-- A bot message on the allowed channel with text `"ping buns"`. -/
def botBody : Json :=
  Json.obj
    [("event",
      Json.obj
        [("channel", Json.str "C0351GJ62Q0"),
         ("subtype", Json.str "bot_message"),
         ("text", Json.str "ping buns")])]

/-- A non-bot message on the allowed channel containing `"buns"`, with no
top-level `enterprise_id` field. -/
def bunsNoEnterpriseBody : Json :=
  Json.obj
    [("event",
      Json.obj
        [("channel", Json.str "C0351GJ62Q0"),
         ("text", Json.str "more buns please")])]

/-! ## Helper lemmas -/

/-- The onboarding step never emits a reply action. -/
theorem onboardActions_no_reply (body : Json) :
    (onboardActions body).countP Action.isReply = 0 := by
  unfold onboardActions; split <;> rfl

/-- The onboarding step never emits a counter-increment action. -/
theorem onboardActions_no_increment (body : Json) :
    (onboardActions body).countP Action.isIncrement = 0 := by
  unfold onboardActions; split <;> rfl

/-- A counter-increment action is never among the onboarding actions. -/
theorem increment_not_in_onboard (body : Json) (c u : String) :
    Action.incrementCounter c u ∉ onboardActions body := by
  unfold onboardActions; split <;> simp

/-- `intercept_command` is the onboarding actions followed by a tail that
contains no onboarding action. -/
theorem intercept_command_shape (body : Json) :
    ∃ rest, intercept_command body = onboardActions body ++ rest ∧
      rest.countP Action.isOnboard = 0 := by
  unfold intercept_command
  split
  · exact ⟨[], by simp, rfl⟩
  · split
    · exact ⟨[], by simp, rfl⟩
    · refine ⟨_, by rw [List.append_assoc], ?_⟩
      rw [List.countP_append]
      split <;> split <;> rfl

/-! ## Claims -/

/-- C1 (counterexample): on a body whose event is on the allowed channel
`"C0351GJ62Q0"`, is not a bot message, and has text `"PING buns"`, the Reply
action does NOT fire — the ping branch is an exact-equality match on the
lower-cased text, and `"ping buns" ≠ "ping"` — refuting the claim that both
Reply and IncrementCounter fire exactly once. -/
theorem c1_ping_buns_refuted :
    channel pingBunsBody = "C0351GJ62Q0" ∧
    is_bot pingBunsBody = false ∧
    text pingBunsBody = "ping buns" ∧
    (intercept_command pingBunsBody).countP Action.isReply = 0 :=
  ⟨rfl, rfl, by decide, by decide⟩

/-- C1 (amended): for every body whose event is on the allowed channel
`"C0351GJ62Q0"`, is not a bot message, and whose lower-cased text is
`"ping buns"` (so the raw text is `"PING buns"` in any letter case), the
IncrementCounter action fires exactly once and the Reply action does not
fire, since the ping match is exact equality on the lower-cased text. -/
theorem c1_ping_buns_dispatch (body : Json)
    (hch : channel body = "C0351GJ62Q0") (hbot : is_bot body = false)
    (htext : text body = "ping buns") :
    (intercept_command body).countP Action.isIncrement = 1 ∧
    (intercept_command body).countP Action.isReply = 0 := by
  unfold intercept_command
  rw [if_neg (not_not_intro hch), if_neg (by rw [hbot]; exact Bool.false_ne_true), htext]
  rw [if_neg (by decide : ¬ (("ping buns" : String) = "ping")),
    if_pos (by decide : strHasSub "ping buns" "buns" = true)]
  refine ⟨?_, ?_⟩ <;>
    simp [List.countP_append, List.countP_cons, List.countP_nil,
      onboardActions_no_reply, onboardActions_no_increment,
      Action.isReply, Action.isIncrement]

/-- C1 witness: the amended dispatch at the concrete `"PING buns"` body. -/
theorem c1_ping_buns_dispatch_witness :
    (intercept_command pingBunsBody).countP Action.isIncrement = 1 ∧
    (intercept_command pingBunsBody).countP Action.isReply = 0 :=
  c1_ping_buns_dispatch pingBunsBody rfl rfl (by decide)

/-- C2: whenever the top-level `challenge` field is the string `v`, the
handler succeeds and its response body is `{ "challenge": v }`, with `v`
unmodified (round-trip identity). -/
theorem c2_challenge_roundtrip (body : Json) (v : String)
    (h : body.index "challenge" = Json.str v) :
    handler (ParseResult.parsed body) =
      Except.ok (Json.obj [("challenge", Json.str v)], intercept_command body) := by
  have hc : intercept_challenge_request body = v := by
    unfold intercept_challenge_request Json.asStrOr
    rw [h]
    rfl
  simp only [handler, hc]

/-- C2 witness: round-trip at a concrete challenge value. -/
theorem c2_challenge_roundtrip_witness :
    (Json.obj [("challenge", Json.str "tok123")]).index "challenge" =
      Json.str "tok123" ∧
    handler (ParseResult.parsed (Json.obj [("challenge", Json.str "tok123")])) =
      Except.ok (Json.obj [("challenge", Json.str "tok123")],
        intercept_command (Json.obj [("challenge", Json.str "tok123")])) :=
  ⟨rfl, c2_challenge_roundtrip _ "tok123" rfl⟩

/-- C3: whenever the top-level `challenge` field is absent or not a string
(`as_str` yields none), the handler's response challenge field is the
sentinel `"invalid_challenge"`. -/
theorem c3_missing_challenge (body : Json)
    (h : (body.index "challenge").asStr = Option.none) :
    handler (ParseResult.parsed body) =
      Except.ok (Json.obj [("challenge", Json.str "invalid_challenge")],
        intercept_command body) := by
  have hc : intercept_challenge_request body = "invalid_challenge" := by
    unfold intercept_challenge_request Json.asStrOr
    rw [h]
    rfl
  simp only [handler, hc]

/-- C3 witness: the sentinel response at the empty JSON object. -/
theorem c3_missing_challenge_witness :
    ((Json.obj []).index "challenge").asStr = Option.none ∧
    handler (ParseResult.parsed (Json.obj [])) =
      Except.ok (Json.obj [("challenge", Json.str "invalid_challenge")],
        intercept_command (Json.obj [])) :=
  ⟨rfl, c3_missing_challenge _ rfl⟩

/-- C4: whenever `event.type` is `"team_join"`, exactly one onboarding
action fires, carrying the event's user id and first name (the accessor
definitions default them to `"invalid_user_name"` and `""` when absent);
this holds in every branch of the dispatch, regardless of the channel,
bot-subtype, and text fields. -/
theorem c4_team_join_onboards (body : Json)
    (h : event_type body = "team_join") :
    (intercept_command body).countP Action.isOnboard = 1 ∧
    Action.onboard (username body) (first_name body) ∈ intercept_command body := by
  obtain ⟨rest, hEq, hRest⟩ := intercept_command_shape body
  have hOnb : onboardActions body =
      [Action.onboard (username body) (first_name body)] := by
    unfold onboardActions; rw [if_pos h]
  rw [hEq, hOnb]
  constructor
  · rw [List.countP_append, hRest]; rfl
  · exact List.mem_append_left _ (List.mem_singleton.mpr rfl)

/-- C4 witness: onboarding at a concrete team_join body. -/
theorem c4_team_join_onboards_witness :
    event_type teamJoinBody = "team_join" ∧
    (intercept_command teamJoinBody).countP Action.isOnboard = 1 ∧
    Action.onboard (username teamJoinBody) (first_name teamJoinBody) ∈
      intercept_command teamJoinBody :=
  ⟨rfl, c4_team_join_onboards teamJoinBody rfl⟩

/-- C5: whenever the event channel (defaulted to `"invalid_channel"` when
absent, hence covered) differs from `"C0351GJ62Q0"`, neither the Reply
action nor the IncrementCounter action fires, for any text value. -/
theorem c5_wrong_channel_no_actions (body : Json)
    (h : channel body ≠ "C0351GJ62Q0") :
    (intercept_command body).countP Action.isReply = 0 ∧
    (intercept_command body).countP Action.isIncrement = 0 := by
  unfold intercept_command
  rw [if_pos h]
  exact ⟨onboardActions_no_reply body, onboardActions_no_increment body⟩

/-- C5 witness: a body on channel `"C9999999999"` with text `"ping"`. -/
theorem c5_wrong_channel_no_actions_witness :
    channel wrongChannelBody ≠ "C0351GJ62Q0" ∧
    (intercept_command wrongChannelBody).countP Action.isReply = 0 ∧
    (intercept_command wrongChannelBody).countP Action.isIncrement = 0 :=
  ⟨by decide, c5_wrong_channel_no_actions wrongChannelBody (by decide)⟩

/-- C6: whenever `event.subtype` is `"bot_message"` and the channel is the
allowed one, neither the Reply action nor the IncrementCounter action
fires, for any text value. -/
theorem c6_bot_no_actions (body : Json)
    (hbot : is_bot body = true) (hch : channel body = "C0351GJ62Q0") :
    (intercept_command body).countP Action.isReply = 0 ∧
    (intercept_command body).countP Action.isIncrement = 0 := by
  unfold intercept_command
  rw [if_neg (not_not_intro hch), if_pos hbot]
  exact ⟨onboardActions_no_reply body, onboardActions_no_increment body⟩

/-- C6 witness: a bot message on the allowed channel with text
`"ping buns"`. -/
theorem c6_bot_no_actions_witness :
    is_bot botBody = true ∧
    channel botBody = "C0351GJ62Q0" ∧
    (intercept_command botBody).countP Action.isReply = 0 ∧
    (intercept_command botBody).countP Action.isIncrement = 0 :=
  ⟨rfl, rfl, c6_bot_no_actions botBody rfl rfl⟩

/-- C7: a body that is not valid JSON makes `handler` fail with a parse
error, and the error result carries no actions; every parsed body succeeds,
so the parse failure is the only condition that aborts the request. -/
theorem c7_malformed_aborts :
    handler ParseResult.malformed = Except.error "malformed payload" ∧
    ∀ body, handler (ParseResult.parsed body) =
      Except.ok
        (Json.obj [("challenge", Json.str (intercept_challenge_request body))],
         intercept_command body) :=
  ⟨rfl, fun _ => rfl⟩

/-- C8: when `increment_buns` runs with `BUNS_TABLE_NAME` absent from the
environment, the process exits with status 1 (non-zero) before the store
call; when the variable is present and the store increment fails, the error
is logged and the computation still completes normally. -/
theorem c8_missing_config_fatal (env : String → Option String) :
    (∀ storeResult, env "BUNS_TABLE_NAME" = Option.none →
      increment_buns env storeResult = FatalOr.exit 1) ∧
    (∀ tbl err, env "BUNS_TABLE_NAME" = Option.some tbl →
      increment_buns env (Except.error err) =
        FatalOr.ok ["DynamoDB increment buns error: " ++ err]) := by
  constructor
  · intro storeResult h
    unfold increment_buns get_env_var
    rw [h]
  · intro tbl err h
    unfold increment_buns get_env_var
    rw [h]

/-- C8 witness: the fatal exit under the empty environment and the logged
continuation under an environment that sets the table name. -/
theorem c8_missing_config_fatal_witness :
    envEmpty "BUNS_TABLE_NAME" = Option.none ∧
    increment_buns envEmpty (Except.ok ()) = FatalOr.exit 1 ∧
    envWithTable "BUNS_TABLE_NAME" = Option.some "buns-table" ∧
    increment_buns envWithTable (Except.error "boom") =
      FatalOr.ok ["DynamoDB increment buns error: " ++ "boom"] :=
  ⟨rfl, (c8_missing_config_fatal envEmpty).1 (Except.ok ()) rfl, rfl,
   (c8_missing_config_fatal envWithTable).2 "buns-table" "boom" rfl⟩

/-- C9: whenever the top-level `enterprise_id` field is absent or not a
string, every IncrementCounter action the dispatch emits carries the
sentinel key `"invalid_channel"` (the default the source gives this user
id), so all such requests accumulate onto a single counter record. -/
theorem c9_missing_enterprise_sentinel (body : Json)
    (henterprise : (body.index "enterprise_id").asStr = Option.none)
    (c u : String)
    (hmem : Action.incrementCounter c u ∈ intercept_command body) :
    u = "invalid_channel" := by
  have hid : enterprise_user_id body = "invalid_channel" := by
    unfold enterprise_user_id Json.asStrOr
    rw [henterprise]
    rfl
  unfold intercept_command at hmem
  split at hmem
  · exact absurd hmem (increment_not_in_onboard body c u)
  · split at hmem
    · exact absurd hmem (increment_not_in_onboard body c u)
    · rcases List.mem_append.mp hmem with h1 | h2
      · rcases List.mem_append.mp h1 with ha | hb
        · exact absurd ha (increment_not_in_onboard body c u)
        · split at hb <;> simp at hb
      · split at h2
        · rw [List.mem_singleton] at h2
          rw [Action.incrementCounter.injEq] at h2
          exact h2.2.trans hid
        · exact absurd h2 (List.not_mem_nil _)

/-- C9 witness: a `"buns"` message on the allowed channel with no
`enterprise_id` field, whose single increment is keyed by the sentinel. -/
theorem c9_missing_enterprise_sentinel_witness :
    (bunsNoEnterpriseBody.index "enterprise_id").asStr = Option.none ∧
    Action.incrementCounter "C0351GJ62Q0" "invalid_channel" ∈
      intercept_command bunsNoEnterpriseBody ∧
    "invalid_channel" = "invalid_channel" :=
  ⟨rfl, by decide,
   c9_missing_enterprise_sentinel bunsNoEnterpriseBody rfl
     "C0351GJ62Q0" "invalid_channel" (by decide)⟩

/-- C10: on no body do the Reply action and the IncrementCounter action
both fire: Reply requires the lower-cased text to equal `"ping"` exactly,
and `"ping"` does not contain the substring `"buns"`. -/
theorem c10_reply_increment_exclusive (body : Json) :
    (intercept_command body).countP Action.isReply = 0 ∨
    (intercept_command body).countP Action.isIncrement = 0 := by
  unfold intercept_command
  split
  · exact Or.inl (onboardActions_no_reply body)
  · split
    · exact Or.inl (onboardActions_no_reply body)
    · by_cases ht : text body = "ping"
      · refine Or.inr ?_
        rw [if_pos ht, ht,
          if_neg (by decide : ¬ (strHasSub "ping" "buns" = true))]
        simp [List.countP_append, List.countP_cons, List.countP_nil,
          onboardActions_no_increment, Action.isIncrement]
      · refine Or.inl ?_
        rw [if_neg ht]
        split <;>
          simp [List.countP_append, List.countP_cons, List.countP_nil,
            onboardActions_no_reply, Action.isReply]

end DevilBot
